import Mathlib

/-! Sandbox data and code layout (`src/x86/executor/include/sandbox_manager.h`).

A shallow embedding of the sandbox manager header: the size and offset constants, the
three packed structs `util_t`, `actor_data_t` and `actor_code_t`, the handle `sandbox_t`,
and the three lifecycle functions the header declares.

* A packed struct is the list of its members in declaration order, each with its byte
  size. `sizeofPacked` and `offsetofPacked` compute `sizeof` and `offsetof` the way
  `__attribute__((packed))` lays the struct out: no padding, every member directly after
  the previous one.
* Two quantities come from headers that are not part of this file and are parameters
  of the embedding: the cache associativity `L1D_ASSOCIATIVITY` (`hardware_desc.h`), an
  `int` constant, and `sizeof(measurement_t)` (`measurement.h`).
* The macros are `int` constant expressions. Those without a parameter stay far inside
  the `int` range and are computed over `Nat`. The two that depend on the associativity,
  `L1D_PRIMING_AREA_SIZE` and `L1D_PRIMING_OFFSET`, are computed the way the compiler
  folds them, in 32-bit two's complement (`wrapInt32`): for a large associativity they
  wrap, and `L1D_PRIMING_OFFSET` can be negative.
* The one expression that involves a `sizeof`, the length of `util_t.unused`, is unsigned
  arithmetic in `size_t` and is evaluated modulo `2 ^ 64`.
* Addresses are natural numbers; an address formed by subtracting an offset from a base
  is computed in `Int`, so that no truncation hides in the subtraction.
* The lifecycle functions are state-passing functions on `ManagerState`; each returns
  its result together with the state after the call, and a call that fails returns the
  state it was given.
-/

namespace SandboxManager

/-! ## Packed structs -/

/-- A packed struct: its members in declaration order, each with its size in bytes. -/
abbrev PackedStruct (F : Type) := List (F × Nat)

/-- Total size of a packed struct: the sum of the member sizes. -/
def sizeofPacked {F : Type} : PackedStruct F → Nat
  | [] => 0
  | (_, sz) :: rest => sz + sizeofPacked rest

/-- Byte offset of member `f` in a packed struct: the sizes of all members declared
before it. -/
def offsetofPacked {F : Type} [DecidableEq F] : PackedStruct F → F → Nat
  | [], _ => 0
  | (g, sz) :: rest, f => if g = f then 0 else sz + offsetofPacked rest f

/-- Size of member `f` of a packed struct. -/
def memberSize {F : Type} [DecidableEq F] : PackedStruct F → F → Nat
  | [], _ => 0
  | (g, sz) :: rest, f => if g = f then sz else memberSize rest f

/-- Address of member `f` of a packed struct that starts at address `base`. -/
def memberAddr {F : Type} [DecidableEq F] (base : Nat) (s : PackedStruct F) (f : F) : Nat :=
  base + offsetofPacked s f

/-- Address of element `i` of an array of structs `s` that starts at address `base`. -/
def elemAddr {F : Type} (base : Nat) (s : PackedStruct F) (i : Nat) : Nat :=
  base + i * sizeofPacked s

/-! ## Sandbox data layout -/

/-- Value of a C `int` constant expression whose mathematical value is `x`: the compiler
folds the expression in 32-bit two's complement, so a value outside the range of `int`
wraps around. -/
def wrapInt32 (x : Int) : Int := (x + 2147483648) % 4294967296 - 2147483648

/-- Value of the macro `L1D_PRIMING_AREA_SIZE`, the `int` expression
`(L1D_ASSOCIATIVITY * 4096)`, for an `int` constant `L1D_ASSOCIATIVITY`. -/
def L1D_PRIMING_AREA_SIZE_value (L1D_ASSOCIATIVITY : Nat) : Int :=
  wrapInt32 ((L1D_ASSOCIATIVITY : Int) * 4096)

/-- The macro `L1D_PRIMING_AREA_SIZE` as the length of the array
`l1d_priming_area[L1D_PRIMING_AREA_SIZE]`: the value of the macro. Where that value is
negative the compiler rejects the declaration and there is no `util_t`; the length is 0
there. -/
def L1D_PRIMING_AREA_SIZE (L1D_ASSOCIATIVITY : Nat) : Nat :=
  (L1D_PRIMING_AREA_SIZE_value L1D_ASSOCIATIVITY).toNat

def MACRO_STACK_SIZE : Nat := 64
def UNDERFLOW_PAD_SIZE : Nat := 4096 - MACRO_STACK_SIZE
def MAIN_AREA_SIZE : Nat := 4096
def FAULTY_AREA_SIZE : Nat := 4096
def REG_INIT_AREA_SIZE : Nat := 320
def OVERFLOW_PAD_SIZE : Nat := 4096 - REG_INIT_AREA_SIZE

def MACRO_STACK_TOP_OFFSET : Nat := UNDERFLOW_PAD_SIZE
def MAIN_AREA_OFFSET : Nat := 0
def FAULTY_AREA_OFFSET : Nat := MAIN_AREA_SIZE
def REG_INIT_OFFSET : Nat := FAULTY_AREA_OFFSET + FAULTY_AREA_SIZE
def OVERFLOW_PAD_OFFSET : Nat := REG_INIT_OFFSET + REG_INIT_AREA_SIZE

def UTIL_OFFSET : Nat := MACRO_STACK_TOP_OFFSET + MACRO_STACK_SIZE
def MEASUREMENT_OFFSET : Nat := UTIL_OFFSET + 4096 - 8
def STORED_RSP_OFFSET : Nat := UTIL_OFFSET + 4096
/-- Value of the macro `L1D_PRIMING_OFFSET`, the `int` expression
`(STORED_RSP_OFFSET + L1D_PRIMING_AREA_SIZE)`. -/
def L1D_PRIMING_OFFSET (L1D_ASSOCIATIVITY : Nat) : Int :=
  wrapInt32 ((STORED_RSP_OFFSET : Int) + L1D_PRIMING_AREA_SIZE_value L1D_ASSOCIATIVITY)

/-- Members of `util_t`. -/
inductive UtilField
  | l1d_priming_area
  | stored_rsp
  | latest_measurement
  | unused
  deriving DecidableEq, Repr

/-- Length of `util_t.unused`, the expression `4096 - 8 - sizeof(measurement_t)`: the
`sizeof` makes the second subtraction a `size_t` one, which wraps modulo `2 ^ 64`. -/
def UNUSED_SIZE (sizeof_measurement_t : Nat) : Nat :=
  ((((4096 - 8 : Nat) : Int) - (sizeof_measurement_t : Int)) % 18446744073709551616).toNat

/-- Packed struct `util_t`, for cache associativity `L1D_ASSOCIATIVITY` and a
`measurement_t` of `sizeof_measurement_t` bytes; `uint64_t` is 8 bytes. -/
def util_t (L1D_ASSOCIATIVITY sizeof_measurement_t : Nat) : PackedStruct UtilField :=
  [ (.l1d_priming_area, L1D_PRIMING_AREA_SIZE L1D_ASSOCIATIVITY),
    (.stored_rsp, 8),
    (.latest_measurement, sizeof_measurement_t),
    (.unused, UNUSED_SIZE sizeof_measurement_t) ]

/-- Members of `actor_data_t`. -/
inductive ActorDataField
  | macro_stack
  | underflow_pad
  | main_area
  | faulty_area
  | reg_init_area
  | overflow_pad
  deriving DecidableEq, Repr

/-- Packed struct `actor_data_t`. -/
def actor_data_t : PackedStruct ActorDataField :=
  [ (.macro_stack, MACRO_STACK_SIZE),
    (.underflow_pad, UNDERFLOW_PAD_SIZE),
    (.main_area, MAIN_AREA_SIZE),
    (.faulty_area, FAULTY_AREA_SIZE),
    (.reg_init_area, REG_INIT_AREA_SIZE),
    (.overflow_pad, OVERFLOW_PAD_SIZE) ]

/-! ## Sandbox code layout -/

def MAX_EXPANDED_SECTION_SIZE : Nat := 0x1000 * 2
def MAX_EXPANDED_MACROS_SIZE : Nat := 0x1000

/-- Members of `actor_code_t`. -/
inductive ActorCodeField
  | section_
  | macros
  deriving DecidableEq, Repr

/-- Packed struct `actor_code_t`. -/
def actor_code_t : PackedStruct ActorCodeField :=
  [ (.section_, MAX_EXPANDED_SECTION_SIZE),
    (.macros, MAX_EXPANDED_MACROS_SIZE) ]

/-! ## Placement of the utility region below the actor data -/

/-- Address of the array of `actor_data_t` when it is placed immediately after a
`util_t` that starts at `utilBase`: the first byte after the `util_t`. -/
def dataBaseAfterUtil (utilBase L1D_ASSOCIATIVITY sizeof_measurement_t : Nat) : Nat :=
  utilBase + sizeofPacked (util_t L1D_ASSOCIATIVITY sizeof_measurement_t)

/-- Address of `main_area` of actor `i`, for the actor data array at `dataBase`. -/
def mainAreaBase (dataBase i : Nat) : Nat :=
  memberAddr (elemAddr dataBase actor_data_t i) actor_data_t .main_area

/-- Address of `faulty_area` of actor `i`, for the actor data array at `dataBase`. -/
def faultyAreaBase (dataBase i : Nat) : Nat :=
  memberAddr (elemAddr dataBase actor_data_t i) actor_data_t .faulty_area

/-- The address `offset` bytes below `base` (what `[r14 - offset]` addresses when `r14`
holds `base`); the offset is the value of an `int` macro. -/
def addrBelow (base : Nat) (offset : Int) : Int := (base : Int) - offset

/-- An address lies inside the region of `size` bytes that starts at `base`. -/
def inRegion (base size : Nat) (a : Int) : Prop := (base : Int) ≤ a ∧ a < (base : Int) + (size : Int)

instance (base size : Nat) (a : Int) : Decidable (inRegion base size a) :=
  inferInstanceAs (Decidable (_ ∧ _))

/-! ## Sandbox handle and lifecycle

The header declares `sandbox_t`, the globals `sandbox` and `main_stack_base`, and the three
functions `allocate_sandbox`, `init_sandbox_manager` and `free_sandbox_manager`; their
bodies are in no file under `src/`. The handle is translated from the header, the state
and the three functions from the specification.
-/

/-- The handle `sandbox_t`: the three region pointers, as addresses. -/
structure sandbox_t where
  data : Nat
  code : Nat
  util : Nat
  deriving DecidableEq, Repr

/-- Modelled from the spec: the two error kinds of its section 7, which the `int` result
of `allocate_sandbox` and `init_sandbox_manager` reports; the header gives no error
codes. -/
inductive SandboxError
  | ConfigurationError
  | AllocationError
  deriving DecidableEq, Repr

/-- Modelled from the spec: where the manager stands in its lifecycle, which the bodies
missing from `src/` keep track of. `uninitialized` is before any `init`; `initialized`
is after an `init` that no release has followed; `released` is after a release. -/
inductive Lifecycle
  | uninitialized
  | initialized
  | released
  deriving DecidableEq, Repr

/-- Modelled from the spec: the process-wide state the three functions act on, which the
header only declares: the active sandbox reference `sandbox` (`none` is the null
reference), the saved host stack base `main_stack_base`, the lifecycle position, and the
bytes of memory by address. -/
structure ManagerState where
  lifecycle : Lifecycle
  sandbox : Option sandbox_t
  main_stack_base : Nat
  memory : Nat → Nat

/-- Modelled from the spec: size of the one contiguous region of section 4.2, whose
computation is in the missing body of `allocate_sandbox`: the utility region, immediately
followed by the actor memory blocks, immediately followed by the code regions, one per
actor. -/
def sandboxRegionSize (L1D_ASSOCIATIVITY sizeof_measurement_t n_actors : Nat) : Nat :=
  sizeofPacked (util_t L1D_ASSOCIATIVITY sizeof_measurement_t)
    + n_actors * sizeofPacked actor_data_t + n_actors * sizeofPacked actor_code_t

/-- Modelled from the spec: the zero-initialization of section 4.2, done in the missing
body of `allocate_sandbox`: every byte of the `size` bytes at `base` becomes zero, all
other bytes keep their value. -/
def zeroFill (memory : Nat → Nat) (base size : Nat) : Nat → Nat :=
  fun a => if base ≤ a ∧ a < base + size then 0 else memory a

/-- Modelled from the spec: `allocate_sandbox`, whose body is missing from `src/`
(sections 4.2, 5 and 8). `host` is what the host memory subsystem answers to the request
for the region: the address of a region of `sandboxRegionSize` bytes, or nothing.
Without a preceding `init` the call fails with a configuration error; when the host
supplies no region, or one that is not page-aligned, it fails with an allocation error;
a failed call publishes nothing and leaves the state as it was. On success the whole
region is zeroed and the handle is published: `util` at the start of the region, `data`
immediately after the `util_t`, `code` immediately after the actor blocks. -/
def allocate_sandbox (L1D_ASSOCIATIVITY sizeof_measurement_t n_actors : Nat)
    (host : Option Nat) (s : ManagerState) : Except SandboxError Unit × ManagerState :=
  match s.lifecycle with
  | .uninitialized => (.error .ConfigurationError, s)
  | _ =>
    match host with
    | none => (.error .AllocationError, s)
    | some base =>
      if base % 4096 = 0 then
        (.ok (),
          { s with
            sandbox := some
              { util := base
                data := base + sizeofPacked (util_t L1D_ASSOCIATIVITY sizeof_measurement_t)
                code := base + sizeofPacked (util_t L1D_ASSOCIATIVITY sizeof_measurement_t)
                  + n_actors * sizeofPacked actor_data_t }
            memory := zeroFill s.memory base
              (sandboxRegionSize L1D_ASSOCIATIVITY sizeof_measurement_t n_actors) })
      else (.error .AllocationError, s)

/-- Modelled from the spec: `init_sandbox_manager`, whose body is missing from `src/`
(sections 4.3, 7 and 8). It is the one-time setup; a call that follows an `init` with no
release in between is rejected with a configuration error before anything is touched. -/
def init_sandbox_manager (s : ManagerState) : Except SandboxError Unit × ManagerState :=
  match s.lifecycle with
  | .initialized => (.error .ConfigurationError, s)
  | _ => (.ok (), { s with lifecycle := .initialized })

/-- Modelled from the spec: `free_sandbox_manager`, whose body is missing from `src/`
(sections 4.3 and 8). It releases the backing memory and resets the active sandbox
reference to none; with no sandbox active it is a no-op. -/
def free_sandbox_manager (s : ManagerState) : ManagerState :=
  match s.sandbox with
  | none => s
  | some _ => { s with sandbox := none, lifecycle := .released }

/-- One call of the lifecycle interface, with the arguments the call depends on. -/
inductive LifecycleCall
  | init
  | allocate (L1D_ASSOCIATIVITY sizeof_measurement_t n_actors : Nat) (host : Option Nat)
  | free
  deriving DecidableEq, Repr

/-- The state after one call of the lifecycle interface. -/
def callLifecycle (s : ManagerState) : LifecycleCall → ManagerState
  | .init => (init_sandbox_manager s).2
  | .allocate A M n host => (allocate_sandbox A M n host s).2
  | .free => free_sandbox_manager s

/-- The state after a sequence of calls of the lifecycle interface, first call first. -/
def runLifecycle (s : ManagerState) : List LifecycleCall → ManagerState
  | [] => s
  | c :: cs => runLifecycle (callLifecycle s c) cs

/-! ## Basic facts about the layout -/

theorem unused_size_of_le (M : Nat) (hM : M ≤ 4088) : UNUSED_SIZE M = 4088 - M := by
  unfold UNUSED_SIZE
  omega

theorem priming_area_size_of_fits (A : Nat) (hA : A * 4096 ≤ 2147483647) :
    L1D_PRIMING_AREA_SIZE A = A * 4096 := by
  unfold L1D_PRIMING_AREA_SIZE L1D_PRIMING_AREA_SIZE_value wrapInt32
  omega

theorem priming_area_size_page_multiple (A : Nat) : L1D_PRIMING_AREA_SIZE A % 4096 = 0 := by
  unfold L1D_PRIMING_AREA_SIZE L1D_PRIMING_AREA_SIZE_value wrapInt32
  omega

theorem priming_offset_of_fits (A : Nat) (hA : 8192 + A * 4096 ≤ 2147483647) :
    L1D_PRIMING_OFFSET A = ((8192 + L1D_PRIMING_AREA_SIZE A : Nat) : Int) := by
  have hrsp : STORED_RSP_OFFSET = 8192 := by decide
  unfold L1D_PRIMING_OFFSET L1D_PRIMING_AREA_SIZE L1D_PRIMING_AREA_SIZE_value wrapInt32
  rw [hrsp]
  omega

theorem sizeof_util_t (A M : Nat) (hM : M ≤ 4088) :
    sizeofPacked (util_t A M) = L1D_PRIMING_AREA_SIZE A + 4096 := by
  simp only [util_t, sizeofPacked, unused_size_of_le M hM]
  omega

theorem sizeof_actor_data_t : sizeofPacked actor_data_t = 16384 := by decide

theorem offsetof_stored_rsp (A M : Nat) :
    offsetofPacked (util_t A M) .stored_rsp = L1D_PRIMING_AREA_SIZE A := by
  simp [offsetofPacked, util_t]

theorem offsetof_latest_measurement (A M : Nat) :
    offsetofPacked (util_t A M) .latest_measurement = L1D_PRIMING_AREA_SIZE A + 8 := by
  simp [offsetofPacked, util_t]

theorem offsetof_main_area : offsetofPacked actor_data_t .main_area = 4096 := by decide

theorem mainAreaBase_eq (dataBase i : Nat) :
    mainAreaBase dataBase i = dataBase + i * 16384 + 4096 := by
  simp only [mainAreaBase, memberAddr, elemAddr, sizeof_actor_data_t, offsetof_main_area]

theorem offsetof_faulty_area : offsetofPacked actor_data_t .faulty_area = 8192 := by decide

theorem faultyAreaBase_eq (dataBase i : Nat) :
    faultyAreaBase dataBase i = dataBase + i * 16384 + 8192 := by
  simp only [faultyAreaBase, memberAddr, elemAddr, sizeof_actor_data_t, offsetof_faulty_area]

theorem mainAreaBase_after_util (A M utilBase i : Nat) (hM : M ≤ 4088) :
    mainAreaBase (dataBaseAfterUtil utilBase A M) i
      = utilBase + L1D_PRIMING_AREA_SIZE A + 8192 + i * 16384 := by
  rw [mainAreaBase_eq, dataBaseAfterUtil, sizeof_util_t A M hM]
  omega

/-! ## Offsets below the main area of actor 0 -/

/-- C1: for every associativity `A` and measurement size `M ≤ 4088`, with a packed `util_t`
directly before actor 0's packed `actor_data_t`, `STORED_RSP_OFFSET` below the base of
actor 0's `main_area` is the address of `util_t.stored_rsp`, and `MEASUREMENT_OFFSET`
below it is the address of `util_t.latest_measurement`. -/
theorem stored_rsp_and_measurement_offsets_reach_util_fields
    (A M utilBase : Nat) (hM : M ≤ 4088) :
    addrBelow (mainAreaBase (dataBaseAfterUtil utilBase A M) 0) STORED_RSP_OFFSET
        = ((memberAddr utilBase (util_t A M) .stored_rsp : Nat) : Int)
      ∧ addrBelow (mainAreaBase (dataBaseAfterUtil utilBase A M) 0) MEASUREMENT_OFFSET
        = ((memberAddr utilBase (util_t A M) .latest_measurement : Nat) : Int) := by
  have hrsp : STORED_RSP_OFFSET = 8192 := by decide
  have hmeas : MEASUREMENT_OFFSET = 8184 := by decide
  simp only [addrBelow, mainAreaBase_after_util A M utilBase 0 hM, memberAddr,
    offsetof_stored_rsp, offsetof_latest_measurement, hrsp, hmeas]
  omega

theorem stored_rsp_and_measurement_offsets_reach_util_fields_witness :
    (24 : Nat) ≤ 4088
      ∧ addrBelow (mainAreaBase (dataBaseAfterUtil 4096 8 24) 0) STORED_RSP_OFFSET
        = ((memberAddr 4096 (util_t 8 24) .stored_rsp : Nat) : Int)
      ∧ addrBelow (mainAreaBase (dataBaseAfterUtil 4096 8 24) 0) MEASUREMENT_OFFSET
        = ((memberAddr 4096 (util_t 8 24) .latest_measurement : Nat) : Int) :=
  ⟨by decide, stored_rsp_and_measurement_offsets_reach_util_fields 8 24 4096 (by decide)⟩

/-- C2 (as stated, refuted): at `A = 524287`, `M = 24` and a `util_t` at address 4096 the
header compiles, with a priming area of 2147479552 bytes, but the `int` expression
`L1D_PRIMING_OFFSET = 8192 + 2147479552` wraps to `-2147479552`, and that offset below
the base of actor 0's `main_area` is not the base of the `util_t`. -/
theorem l1d_priming_offset_wraps_at_524287 :
    (24 : Nat) ≤ 4088
      ∧ L1D_PRIMING_AREA_SIZE_value 524287 = 2147479552
      ∧ L1D_PRIMING_OFFSET 524287 = -2147479552
      ∧ memberAddr 4096 (util_t 524287 24) .l1d_priming_area = 4096
      ∧ addrBelow (mainAreaBase (dataBaseAfterUtil 4096 524287 24) 0)
          (L1D_PRIMING_OFFSET 524287) = 4294971392
      ∧ ¬ (addrBelow (mainAreaBase (dataBaseAfterUtil 4096 524287 24) 0)
            (L1D_PRIMING_OFFSET 524287)
          = ((memberAddr 4096 (util_t 524287 24) .l1d_priming_area : Nat) : Int)) := by
  decide

/-- C2 (amended): for every associativity `A` and measurement size `M ≤ 4088`, with a packed
`util_t` directly before actor 0's packed `actor_data_t`: if the `int` expression
`L1D_PRIMING_OFFSET = 8192 + A * 4096` does not overflow (`A ≤ 524285`), then
`L1D_PRIMING_OFFSET` below the base of actor 0's `main_area` is the first byte of
`l1d_priming_area`; that byte is the base of the `util_t`; and `UTIL_OFFSET` below the
base of actor 0's `main_area` is the first byte after the `util_t`, which is the base of
actor 0's `actor_data_t`. -/
theorem l1d_priming_and_util_offsets_reach_util_ends
    (A M utilBase : Nat) (hM : M ≤ 4088) :
    (8192 + A * 4096 ≤ 2147483647 →
        addrBelow (mainAreaBase (dataBaseAfterUtil utilBase A M) 0) (L1D_PRIMING_OFFSET A)
          = ((memberAddr utilBase (util_t A M) .l1d_priming_area : Nat) : Int))
      ∧ memberAddr utilBase (util_t A M) .l1d_priming_area = utilBase
      ∧ addrBelow (mainAreaBase (dataBaseAfterUtil utilBase A M) 0) UTIL_OFFSET
        = ((utilBase + sizeofPacked (util_t A M) : Nat) : Int)
      ∧ utilBase + sizeofPacked (util_t A M)
        = elemAddr (dataBaseAfterUtil utilBase A M) actor_data_t 0 := by
  have hutil : UTIL_OFFSET = 4096 := by decide
  have hoff : offsetofPacked (util_t A M) .l1d_priming_area = 0 := by
    simp [offsetofPacked, util_t]
  rw [mainAreaBase_after_util A M utilBase 0 hM]
  simp only [addrBelow, memberAddr, hoff, hutil, elemAddr, dataBaseAfterUtil,
    sizeof_util_t A M hM]
  refine ⟨?_, by omega, by omega, by omega⟩
  intro hA
  rw [priming_offset_of_fits A hA]
  omega

theorem l1d_priming_and_util_offsets_reach_util_ends_witness :
    (24 : Nat) ≤ 4088 ∧ 8192 + 8 * 4096 ≤ 2147483647
      ∧ addrBelow (mainAreaBase (dataBaseAfterUtil 4096 8 24) 0) (L1D_PRIMING_OFFSET 8)
        = ((memberAddr 4096 (util_t 8 24) .l1d_priming_area : Nat) : Int)
      ∧ memberAddr 4096 (util_t 8 24) .l1d_priming_area = 4096
      ∧ addrBelow (mainAreaBase (dataBaseAfterUtil 4096 8 24) 0) UTIL_OFFSET
        = ((4096 + sizeofPacked (util_t 8 24) : Nat) : Int)
      ∧ 4096 + sizeofPacked (util_t 8 24)
        = elemAddr (dataBaseAfterUtil 4096 8 24) actor_data_t 0 :=
  ⟨by decide, by decide,
    (l1d_priming_and_util_offsets_reach_util_ends 8 24 4096 (by decide)).1 (by decide),
    (l1d_priming_and_util_offsets_reach_util_ends 8 24 4096 (by decide)).2⟩

/-! ## Sizes of the regions -/

/-- C3: for every associativity `A` and measurement size `M ≤ 4088`, the packed `util_t`
consists of the priming area, the 8-byte `stored_rsp`, the `M`-byte measurement and
`4096 - 8 - M` unused bytes, and its total size is `L1D_PRIMING_AREA_SIZE + 4096`,
whatever `M` is. -/
theorem util_t_size_is_priming_area_plus_page (A M : Nat) (hM : M ≤ 4088) :
    memberSize (util_t A M) .l1d_priming_area = L1D_PRIMING_AREA_SIZE A
      ∧ memberSize (util_t A M) .stored_rsp = 8
      ∧ memberSize (util_t A M) .latest_measurement = M
      ∧ memberSize (util_t A M) .unused = 4096 - 8 - M
      ∧ sizeofPacked (util_t A M) = L1D_PRIMING_AREA_SIZE A + 4096 := by
  refine ⟨?_, ?_, ?_, ?_, ?_⟩
  · simp [memberSize, util_t]
  · simp [memberSize, util_t]
  · simp [memberSize, util_t]
  · simp [memberSize, util_t, unused_size_of_le M hM]
  · rw [sizeof_util_t A M hM, L1D_PRIMING_AREA_SIZE]

theorem util_t_size_is_priming_area_plus_page_witness :
    (4088 : Nat) ≤ 4088
      ∧ memberSize (util_t 12 4088) .l1d_priming_area = L1D_PRIMING_AREA_SIZE 12
      ∧ memberSize (util_t 12 4088) .stored_rsp = 8
      ∧ memberSize (util_t 12 4088) .latest_measurement = 4088
      ∧ memberSize (util_t 12 4088) .unused = 4096 - 8 - 4088
      ∧ sizeofPacked (util_t 12 4088) = L1D_PRIMING_AREA_SIZE 12 + 4096 :=
  ⟨by decide, util_t_size_is_priming_area_plus_page 12 4088 (by decide)⟩

/-- C4 (as stated, refuted): at `A = 1048576` and `M = 24` the `int` product
`1048576 * 4096` wraps to 0, the priming area has length 0, and `sizeof(util_t)` is 4096,
not `(A + 1) * 4096 = 4294971392`. -/
theorem util_t_size_wraps_at_1048576 :
    (24 : Nat) ≤ 4088
      ∧ L1D_PRIMING_AREA_SIZE_value 1048576 = 0
      ∧ sizeofPacked (util_t 1048576 24) = 4096
      ∧ ¬ (sizeofPacked (util_t 1048576 24) = (1048576 + 1) * 4096) := by
  decide

/-- C4 (amended): for every associativity `A` and measurement size `M ≤ 4088`, the size of
each declared region is an exact multiple of the 4096-byte page: `sizeof(actor_data_t)`
is `16384 = 4 * 4096`, `sizeof(actor_code_t)` is `12288 = 3 * 4096`, and `sizeof(util_t)`
is a multiple of 4096; if the `int` product `A * 4096` does not overflow (`A ≤ 524287`),
`sizeof(util_t)` is `(A + 1) * 4096`. -/
theorem region_sizes_are_page_multiples (A M : Nat) (hM : M ≤ 4088) :
    (A * 4096 ≤ 2147483647 → sizeofPacked (util_t A M) = (A + 1) * 4096)
      ∧ sizeofPacked actor_data_t = 16384 ∧ sizeofPacked actor_data_t = 4 * 4096
      ∧ sizeofPacked actor_code_t = 12288 ∧ sizeofPacked actor_code_t = 3 * 4096
      ∧ sizeofPacked (util_t A M) % 4096 = 0
      ∧ sizeofPacked actor_data_t % 4096 = 0
      ∧ sizeofPacked actor_code_t % 4096 = 0 := by
  have hcode : sizeofPacked actor_code_t = 12288 := by decide
  have hpage := priming_area_size_page_multiple A
  rw [sizeof_util_t A M hM, sizeof_actor_data_t, hcode]
  refine ⟨?_, rfl, rfl, rfl, rfl, by omega, rfl, rfl⟩
  intro hA
  rw [priming_area_size_of_fits A hA]
  omega

theorem region_sizes_are_page_multiples_witness :
    (0 : Nat) ≤ 4088 ∧ 2 * 4096 ≤ 2147483647
      ∧ sizeofPacked (util_t 2 0) = (2 + 1) * 4096
      ∧ sizeofPacked actor_data_t = 16384 ∧ sizeofPacked actor_data_t = 4 * 4096
      ∧ sizeofPacked actor_code_t = 12288 ∧ sizeofPacked actor_code_t = 3 * 4096
      ∧ sizeofPacked (util_t 2 0) % 4096 = 0
      ∧ sizeofPacked actor_data_t % 4096 = 0
      ∧ sizeofPacked actor_code_t % 4096 = 0 :=
  ⟨by decide, by decide,
    (region_sizes_are_page_multiples 2 0 (by decide)).1 (by decide),
    (region_sizes_are_page_multiples 2 0 (by decide)).2⟩

/-- C5: with `L1D_ASSOCIATIVITY = 8` the layout constants are
`L1D_PRIMING_AREA_SIZE = 32768`, `UTIL_OFFSET = 64 + (4096 - 64) = 4096`,
`STORED_RSP_OFFSET = 4096 + 4096 = 8192`, `MEASUREMENT_OFFSET = 8192 - 8 = 8184` and
`L1D_PRIMING_OFFSET = 8192 + 32768 = 40960`. -/
theorem layout_constants_for_associativity_8 :
    L1D_PRIMING_AREA_SIZE 8 = 32768
      ∧ UTIL_OFFSET = 64 + (4096 - 64) ∧ UTIL_OFFSET = 4096
      ∧ STORED_RSP_OFFSET = 4096 + 4096 ∧ STORED_RSP_OFFSET = 8192
      ∧ MEASUREMENT_OFFSET = 8192 - 8 ∧ MEASUREMENT_OFFSET = 8184
      ∧ L1D_PRIMING_OFFSET 8 = 8192 + 32768 ∧ L1D_PRIMING_OFFSET 8 = 40960 := by
  decide

/-! ## The actor-0 offsets and the bounds of the utility region -/

/-- C6 (as stated, refuted): the four actor-0 offsets do not all resolve inside the
`util_t`. At `A = 8`, `M = 24` and a `util_t` at address 4096, `UTIL_OFFSET` below the
base of actor 0's `main_area` is the first byte of actor 0's `macro_stack`, which is the
first byte after the `util_t`. At `A = 524287` the header compiles but the `int`
expression `L1D_PRIMING_OFFSET` wraps to `-2147479552`, and that offset below the base
of actor 0's `main_area` is above the `util_t`. -/
theorem util_offset_resolves_past_util_t :
    (24 : Nat) ≤ 4088
      ∧ ¬ (inRegion 4096 (sizeofPacked (util_t 8 24))
            (addrBelow (mainAreaBase (dataBaseAfterUtil 4096 8 24) 0) UTIL_OFFSET)
          ∧ inRegion 4096 (sizeofPacked (util_t 8 24))
            (addrBelow (mainAreaBase (dataBaseAfterUtil 4096 8 24) 0) STORED_RSP_OFFSET)
          ∧ inRegion 4096 (sizeofPacked (util_t 8 24))
            (addrBelow (mainAreaBase (dataBaseAfterUtil 4096 8 24) 0) MEASUREMENT_OFFSET)
          ∧ inRegion 4096 (sizeofPacked (util_t 8 24))
            (addrBelow (mainAreaBase (dataBaseAfterUtil 4096 8 24) 0) (L1D_PRIMING_OFFSET 8)))
      ∧ addrBelow (mainAreaBase (dataBaseAfterUtil 4096 8 24) 0) UTIL_OFFSET
        = ((memberAddr (elemAddr (dataBaseAfterUtil 4096 8 24) actor_data_t 0)
            actor_data_t .macro_stack : Nat) : Int)
      ∧ L1D_PRIMING_OFFSET 524287 = -2147479552
      ∧ ¬ inRegion 4096 (sizeofPacked (util_t 524287 24))
          (addrBelow (mainAreaBase (dataBaseAfterUtil 4096 524287 24) 0)
            (L1D_PRIMING_OFFSET 524287)) := by
  decide

/-- C6 (amended): for every associativity `A` and measurement size `M ≤ 4088`, with the
`util_t` directly before actor 0's `actor_data_t`, the offsets `STORED_RSP_OFFSET` and
`MEASUREMENT_OFFSET` below the base of actor 0's `main_area` resolve to addresses inside
the `util_t`; so does `L1D_PRIMING_OFFSET` if the `int` expression `8192 + A * 4096` does
not overflow (`A ≤ 524285`); `UTIL_OFFSET` resolves to the end of the `util_t`: the
first address after its last byte, not an address inside it. -/
theorem actor0_offsets_resolve_in_or_at_end_of_util_t
    (A M utilBase : Nat) (hM : M ≤ 4088) :
    inRegion utilBase (sizeofPacked (util_t A M))
        (addrBelow (mainAreaBase (dataBaseAfterUtil utilBase A M) 0) STORED_RSP_OFFSET)
      ∧ inRegion utilBase (sizeofPacked (util_t A M))
        (addrBelow (mainAreaBase (dataBaseAfterUtil utilBase A M) 0) MEASUREMENT_OFFSET)
      ∧ (8192 + A * 4096 ≤ 2147483647 →
          inRegion utilBase (sizeofPacked (util_t A M))
            (addrBelow (mainAreaBase (dataBaseAfterUtil utilBase A M) 0)
              (L1D_PRIMING_OFFSET A)))
      ∧ addrBelow (mainAreaBase (dataBaseAfterUtil utilBase A M) 0) UTIL_OFFSET
        = (utilBase : Int) + (sizeofPacked (util_t A M) : Int)
      ∧ ¬ inRegion utilBase (sizeofPacked (util_t A M))
        (addrBelow (mainAreaBase (dataBaseAfterUtil utilBase A M) 0) UTIL_OFFSET) := by
  have hutil : UTIL_OFFSET = 4096 := by decide
  have hrsp : STORED_RSP_OFFSET = 8192 := by decide
  have hmeas : MEASUREMENT_OFFSET = 8184 := by decide
  rw [mainAreaBase_after_util A M utilBase 0 hM]
  simp only [inRegion, addrBelow, hutil, hrsp, hmeas, sizeof_util_t A M hM]
  refine ⟨by omega, by omega, ?_, by omega, by omega⟩
  intro hA
  rw [priming_offset_of_fits A hA]
  omega

theorem actor0_offsets_resolve_in_or_at_end_of_util_t_witness :
    (24 : Nat) ≤ 4088 ∧ 8192 + 8 * 4096 ≤ 2147483647
      ∧ inRegion 4096 (sizeofPacked (util_t 8 24))
        (addrBelow (mainAreaBase (dataBaseAfterUtil 4096 8 24) 0) STORED_RSP_OFFSET)
      ∧ inRegion 4096 (sizeofPacked (util_t 8 24))
        (addrBelow (mainAreaBase (dataBaseAfterUtil 4096 8 24) 0) MEASUREMENT_OFFSET)
      ∧ inRegion 4096 (sizeofPacked (util_t 8 24))
        (addrBelow (mainAreaBase (dataBaseAfterUtil 4096 8 24) 0) (L1D_PRIMING_OFFSET 8))
      ∧ addrBelow (mainAreaBase (dataBaseAfterUtil 4096 8 24) 0) UTIL_OFFSET
        = ((4096 : Nat) : Int) + (sizeofPacked (util_t 8 24) : Int)
      ∧ ¬ inRegion 4096 (sizeofPacked (util_t 8 24))
        (addrBelow (mainAreaBase (dataBaseAfterUtil 4096 8 24) 0) UTIL_OFFSET) :=
  ⟨by decide, by decide,
    (actor0_offsets_resolve_in_or_at_end_of_util_t 8 24 4096 (by decide)).1,
    (actor0_offsets_resolve_in_or_at_end_of_util_t 8 24 4096 (by decide)).2.1,
    (actor0_offsets_resolve_in_or_at_end_of_util_t 8 24 4096 (by decide)).2.2.1 (by decide),
    (actor0_offsets_resolve_in_or_at_end_of_util_t 8 24 4096 (by decide)).2.2.2⟩

/-! ## The faulty page -/

/-- C7: `FAULTY_AREA_OFFSET = 4096` and `FAULTY_AREA_SIZE = MAIN_AREA_SIZE = 4096`, the
faulty page having the same size as the main page and starting `FAULTY_AREA_OFFSET` after
it; and for every associativity `A`, measurement size `M ≤ 4088` and actor index `i`, if
the allocation (the `util_t` directly followed by the array of packed `actor_data_t`)
starts at a multiple of 4096, then `main_area` and `faulty_area` of actor `i` both start
at a multiple of 4096. -/
theorem faulty_area_fixed_and_page_aligned
    (A M utilBase i : Nat) (hM : M ≤ 4088) (halign : utilBase % 4096 = 0) :
    FAULTY_AREA_OFFSET = 4096
      ∧ FAULTY_AREA_SIZE = MAIN_AREA_SIZE ∧ MAIN_AREA_SIZE = 4096
      ∧ memberSize actor_data_t .faulty_area = memberSize actor_data_t .main_area
      ∧ faultyAreaBase (dataBaseAfterUtil utilBase A M) i
        = mainAreaBase (dataBaseAfterUtil utilBase A M) i + FAULTY_AREA_OFFSET
      ∧ mainAreaBase (dataBaseAfterUtil utilBase A M) i % 4096 = 0
      ∧ faultyAreaBase (dataBaseAfterUtil utilBase A M) i % 4096 = 0 := by
  have hoff : FAULTY_AREA_OFFSET = 4096 := by decide
  have hshape : memberSize actor_data_t .faulty_area = memberSize actor_data_t .main_area := by
    decide
  have hpage := priming_area_size_page_multiple A
  refine ⟨hoff, by decide, by decide, hshape, ?_, ?_, ?_⟩
  · rw [faultyAreaBase_eq, mainAreaBase_eq, hoff]
  · rw [mainAreaBase_after_util A M utilBase i hM]
    omega
  · rw [faultyAreaBase_eq, dataBaseAfterUtil, sizeof_util_t A M hM]
    omega

theorem faulty_area_fixed_and_page_aligned_witness :
    (24 : Nat) ≤ 4088 ∧ 8192 % 4096 = 0
      ∧ FAULTY_AREA_OFFSET = 4096
      ∧ FAULTY_AREA_SIZE = MAIN_AREA_SIZE ∧ MAIN_AREA_SIZE = 4096
      ∧ memberSize actor_data_t .faulty_area = memberSize actor_data_t .main_area
      ∧ faultyAreaBase (dataBaseAfterUtil 8192 8 24) 3
        = mainAreaBase (dataBaseAfterUtil 8192 8 24) 3 + FAULTY_AREA_OFFSET
      ∧ mainAreaBase (dataBaseAfterUtil 8192 8 24) 3 % 4096 = 0
      ∧ faultyAreaBase (dataBaseAfterUtil 8192 8 24) 3 % 4096 = 0 :=
  ⟨by decide, by decide,
    faulty_area_fixed_and_page_aligned 8 24 8192 3 (by decide) (by decide)⟩

/-! ## The cache priming area -/

/-- C8 (as stated, refuted): at `A = 1048576` (and `M = 24`) the `int` product
`1048576 * 4096` wraps to 0, so the cache priming area has size 0, not
`A * 4096 = 4294967296`. -/
theorem priming_area_size_wraps_at_1048576 :
    L1D_PRIMING_AREA_SIZE_value 1048576 = 0
      ∧ L1D_PRIMING_AREA_SIZE 1048576 = 0
      ∧ memberSize (util_t 1048576 24) .l1d_priming_area = 0
      ∧ ¬ (memberSize (util_t 1048576 24) .l1d_priming_area = 1048576 * 4096)
      ∧ ¬ (L1D_PRIMING_AREA_SIZE 1048576 = 1048576 * 4096) := by
  decide

/-- C8 (amended): for every associativity `A`, the cache priming area has size
`L1D_PRIMING_AREA_SIZE`, which is exactly `A * 4096` if that `int` product does not
overflow (`A ≤ 524287`); it is the member at byte offset 0 of the packed `util_t` (no
member has a lower offset), and it directly precedes the saved stack pointer: the offset
of `stored_rsp` in `util_t` is `L1D_PRIMING_AREA_SIZE`, the offset of the priming area
plus its size. -/
theorem priming_area_first_and_adjacent_to_stored_rsp (A M : Nat) :
    (A * 4096 ≤ 2147483647 →
        L1D_PRIMING_AREA_SIZE A = A * 4096
          ∧ memberSize (util_t A M) .l1d_priming_area = A * 4096)
      ∧ memberSize (util_t A M) .l1d_priming_area = L1D_PRIMING_AREA_SIZE A
      ∧ offsetofPacked (util_t A M) .l1d_priming_area = 0
      ∧ (∀ f : UtilField,
          offsetofPacked (util_t A M) .l1d_priming_area ≤ offsetofPacked (util_t A M) f)
      ∧ offsetofPacked (util_t A M) .stored_rsp = L1D_PRIMING_AREA_SIZE A
      ∧ offsetofPacked (util_t A M) .stored_rsp
        = offsetofPacked (util_t A M) .l1d_priming_area
          + memberSize (util_t A M) .l1d_priming_area := by
  have hoff : offsetofPacked (util_t A M) .l1d_priming_area = 0 := by
    simp [offsetofPacked, util_t]
  have hsize : memberSize (util_t A M) .l1d_priming_area = L1D_PRIMING_AREA_SIZE A := by
    simp [memberSize, util_t]
  refine ⟨?_, hsize, hoff, ?_, ?_, ?_⟩
  · intro hA
    rw [hsize]
    exact ⟨priming_area_size_of_fits A hA, priming_area_size_of_fits A hA⟩
  · intro f
    rw [hoff]
    exact Nat.zero_le _
  · rw [offsetof_stored_rsp]
  · rw [offsetof_stored_rsp, hoff, hsize, Nat.zero_add]

theorem priming_area_first_and_adjacent_to_stored_rsp_witness :
    12 * 4096 ≤ 2147483647
      ∧ (L1D_PRIMING_AREA_SIZE 12 = 12 * 4096
        ∧ memberSize (util_t 12 24) .l1d_priming_area = 12 * 4096)
      ∧ memberSize (util_t 12 24) .l1d_priming_area = L1D_PRIMING_AREA_SIZE 12
      ∧ offsetofPacked (util_t 12 24) .l1d_priming_area = 0
      ∧ (∀ f : UtilField,
          offsetofPacked (util_t 12 24) .l1d_priming_area ≤ offsetofPacked (util_t 12 24) f)
      ∧ offsetofPacked (util_t 12 24) .stored_rsp = L1D_PRIMING_AREA_SIZE 12
      ∧ offsetofPacked (util_t 12 24) .stored_rsp
        = offsetofPacked (util_t 12 24) .l1d_priming_area
          + memberSize (util_t 12 24) .l1d_priming_area :=
  ⟨by decide,
    (priming_area_first_and_adjacent_to_stored_rsp 12 24).1 (by decide),
    (priming_area_first_and_adjacent_to_stored_rsp 12 24).2⟩

/-! ## Offsets at or above the main area -/

/-- C9: every named offset at or above the main area matches its formula and the packed
struct: `MAIN_AREA_OFFSET = 0`, `FAULTY_AREA_OFFSET = MAIN_AREA_OFFSET + MAIN_AREA_SIZE`,
`REG_INIT_OFFSET = FAULTY_AREA_OFFSET + FAULTY_AREA_SIZE`,
`OVERFLOW_PAD_OFFSET = REG_INIT_OFFSET + REG_INIT_AREA_SIZE`, and these are the byte
distances from `main_area` to `main_area`, `faulty_area`, `reg_init_area` and
`overflow_pad` in the packed `actor_data_t`: 0, 4096, 8192 and 8512. -/
theorem upper_offsets_match_formulas_and_struct :
    MAIN_AREA_OFFSET = 0
      ∧ FAULTY_AREA_OFFSET = MAIN_AREA_OFFSET + MAIN_AREA_SIZE
      ∧ REG_INIT_OFFSET = FAULTY_AREA_OFFSET + FAULTY_AREA_SIZE
      ∧ OVERFLOW_PAD_OFFSET = REG_INIT_OFFSET + REG_INIT_AREA_SIZE
      ∧ offsetofPacked actor_data_t .main_area
        = offsetofPacked actor_data_t .main_area + MAIN_AREA_OFFSET
      ∧ offsetofPacked actor_data_t .faulty_area
        = offsetofPacked actor_data_t .main_area + FAULTY_AREA_OFFSET
      ∧ offsetofPacked actor_data_t .reg_init_area
        = offsetofPacked actor_data_t .main_area + REG_INIT_OFFSET
      ∧ offsetofPacked actor_data_t .overflow_pad
        = offsetofPacked actor_data_t .main_area + OVERFLOW_PAD_OFFSET
      ∧ FAULTY_AREA_OFFSET = 4096 ∧ REG_INIT_OFFSET = 8192 ∧ OVERFLOW_PAD_OFFSET = 8512 := by
  decide

/-! ## The register-seed area -/

/-- C10: the register-seed area is exactly large enough for 8 general-purpose register
seeds of 8 bytes plus 8 vector-register seeds of 32 bytes:
`REG_INIT_AREA_SIZE = 8 * 8 + 8 * 32 = 320`, and that is the size of `reg_init_area`. -/
theorem reg_init_area_holds_gpr_and_ymm_seeds :
    REG_INIT_AREA_SIZE = 8 * 8 + 8 * 32
      ∧ REG_INIT_AREA_SIZE = 320
      ∧ memberSize actor_data_t .reg_init_area = REG_INIT_AREA_SIZE := by
  decide

/-! ## Guard pads and the macro stack -/

/-- C11: each guard pad pads its neighbour to exactly one page:
`MACRO_STACK_SIZE + UNDERFLOW_PAD_SIZE = 4096` and
`REG_INIT_AREA_SIZE + OVERFLOW_PAD_SIZE = 4096`, so that in the packed `actor_data_t` the
`main_area` starts exactly 4096 bytes after the block base, directly after
`underflow_pad`, and the block ends exactly 4096 bytes after the start of
`reg_init_area`. -/
theorem guard_pads_fill_their_page :
    MACRO_STACK_SIZE + UNDERFLOW_PAD_SIZE = 4096
      ∧ REG_INIT_AREA_SIZE + OVERFLOW_PAD_SIZE = 4096
      ∧ memberSize actor_data_t .macro_stack + memberSize actor_data_t .underflow_pad = 4096
      ∧ memberSize actor_data_t .reg_init_area + memberSize actor_data_t .overflow_pad = 4096
      ∧ offsetofPacked actor_data_t .macro_stack = 0
      ∧ offsetofPacked actor_data_t .underflow_pad + memberSize actor_data_t .underflow_pad
        = offsetofPacked actor_data_t .main_area
      ∧ offsetofPacked actor_data_t .main_area = 4096
      ∧ offsetofPacked actor_data_t .overflow_pad
        = offsetofPacked actor_data_t .reg_init_area + memberSize actor_data_t .reg_init_area
      ∧ sizeofPacked actor_data_t = offsetofPacked actor_data_t .reg_init_area + 4096 := by
  decide

/-- C15: in the packed `actor_data_t` of any actor, `MACRO_STACK_TOP_OFFSET` below the base
of `main_area` is the first byte after `macro_stack`, the start of `underflow_pad`; the
`MACRO_STACK_SIZE = 64` bytes directly below that address are the member `macro_stack`,
whose first byte is the block base, `UTIL_OFFSET` below the base of `main_area`; and
`UTIL_OFFSET = MACRO_STACK_TOP_OFFSET + MACRO_STACK_SIZE = 4096`. -/
theorem macro_stack_lies_below_its_top_offset (dataBase i : Nat) :
    addrBelow (mainAreaBase dataBase i) MACRO_STACK_TOP_OFFSET
        = ((memberAddr (elemAddr dataBase actor_data_t i) actor_data_t .underflow_pad : Nat) : Int)
      ∧ memberAddr (elemAddr dataBase actor_data_t i) actor_data_t .underflow_pad
        = memberAddr (elemAddr dataBase actor_data_t i) actor_data_t .macro_stack
          + memberSize actor_data_t .macro_stack
      ∧ memberSize actor_data_t .macro_stack = MACRO_STACK_SIZE
      ∧ MACRO_STACK_SIZE = 64
      ∧ addrBelow (mainAreaBase dataBase i) MACRO_STACK_TOP_OFFSET - (MACRO_STACK_SIZE : Int)
        = ((memberAddr (elemAddr dataBase actor_data_t i) actor_data_t .macro_stack : Nat) : Int)
      ∧ memberAddr (elemAddr dataBase actor_data_t i) actor_data_t .macro_stack
        = elemAddr dataBase actor_data_t i
      ∧ addrBelow (mainAreaBase dataBase i) UTIL_OFFSET
        = ((elemAddr dataBase actor_data_t i : Nat) : Int)
      ∧ UTIL_OFFSET = MACRO_STACK_TOP_OFFSET + MACRO_STACK_SIZE
      ∧ UTIL_OFFSET = 4096 := by
  have htop : MACRO_STACK_TOP_OFFSET = 4032 := by decide
  have hstack : MACRO_STACK_SIZE = 64 := by decide
  have hutil : UTIL_OFFSET = 4096 := by decide
  have hms : memberSize actor_data_t .macro_stack = 64 := by decide
  have hopad : offsetofPacked actor_data_t .underflow_pad = 64 := by decide
  have hostack : offsetofPacked actor_data_t .macro_stack = 0 := by decide
  rw [mainAreaBase_eq]
  simp only [addrBelow, memberAddr, elemAddr, sizeof_actor_data_t, htop, hstack, hutil, hms,
    hopad, hostack]
  refine ⟨?_, trivial, trivial, trivial, ?_, ?_, ?_, trivial, trivial⟩ <;> omega

/-! ## Reach of the measurement slot, and the utility offsets for other actors -/

/-- C16: for every measurement size `M`, the `M` bytes that start `MEASUREMENT_OFFSET`
below the base of actor 0's `main_area` start exactly where the 8-byte `stored_rsp` slot
at `STORED_RSP_OFFSET` below that base ends; they end at or below the base of actor 0's
block, `UTIL_OFFSET` below the base of `main_area`, if and only if `M ≤ 4096 - 8 = 4088`;
and for a larger `M` they contain the first byte of actor 0's `macro_stack`. -/
theorem measurement_slot_fits_iff_at_most_4088 (M dataBase : Nat) :
    addrBelow (mainAreaBase dataBase 0) MEASUREMENT_OFFSET
        = addrBelow (mainAreaBase dataBase 0) STORED_RSP_OFFSET + 8
      ∧ (addrBelow (mainAreaBase dataBase 0) MEASUREMENT_OFFSET + (M : Int)
            ≤ addrBelow (mainAreaBase dataBase 0) UTIL_OFFSET
          ↔ M ≤ 4096 - 8)
      ∧ addrBelow (mainAreaBase dataBase 0) UTIL_OFFSET
        = ((memberAddr (elemAddr dataBase actor_data_t 0) actor_data_t .macro_stack : Nat) : Int)
      ∧ (4088 < M →
          addrBelow (mainAreaBase dataBase 0) MEASUREMENT_OFFSET
              ≤ ((memberAddr (elemAddr dataBase actor_data_t 0) actor_data_t .macro_stack
                  : Nat) : Int)
            ∧ ((memberAddr (elemAddr dataBase actor_data_t 0) actor_data_t .macro_stack
                  : Nat) : Int)
              < addrBelow (mainAreaBase dataBase 0) MEASUREMENT_OFFSET + (M : Int)) := by
  have hutil : UTIL_OFFSET = 4096 := by decide
  have hrsp : STORED_RSP_OFFSET = 8192 := by decide
  have hmeas : MEASUREMENT_OFFSET = 8184 := by decide
  have hostack : offsetofPacked actor_data_t .macro_stack = 0 := by decide
  rw [mainAreaBase_eq]
  simp only [addrBelow, memberAddr, elemAddr, sizeof_actor_data_t, hutil, hrsp, hmeas, hostack]
  refine ⟨?_, ?_, ?_, ?_⟩ <;> omega

theorem measurement_slot_fits_iff_at_most_4088_witness :
    addrBelow (mainAreaBase 36864 0) MEASUREMENT_OFFSET
        = addrBelow (mainAreaBase 36864 0) STORED_RSP_OFFSET + 8
      ∧ (addrBelow (mainAreaBase 36864 0) MEASUREMENT_OFFSET + ((4089 : Nat) : Int)
            ≤ addrBelow (mainAreaBase 36864 0) UTIL_OFFSET
          ↔ 4089 ≤ 4096 - 8)
      ∧ addrBelow (mainAreaBase 36864 0) UTIL_OFFSET
        = ((memberAddr (elemAddr 36864 actor_data_t 0) actor_data_t .macro_stack : Nat) : Int)
      ∧ (4088 < 4089 →
          addrBelow (mainAreaBase 36864 0) MEASUREMENT_OFFSET
              ≤ ((memberAddr (elemAddr 36864 actor_data_t 0) actor_data_t .macro_stack
                  : Nat) : Int)
            ∧ ((memberAddr (elemAddr 36864 actor_data_t 0) actor_data_t .macro_stack
                  : Nat) : Int)
              < addrBelow (mainAreaBase 36864 0) MEASUREMENT_OFFSET + ((4089 : Nat) : Int)) :=
  measurement_slot_fits_iff_at_most_4088 4089 36864

/-- C17: the utility offsets are valid only relative to actor 0. In a contiguous array of
packed `actor_data_t` the `main_area` of actor `i` starts `16384 * i` bytes after that of
actor 0, so for every actor index `i ≥ 1` and every associativity `A`, `STORED_RSP_OFFSET`
below the base of actor `i`'s `main_area` is the first byte of the `reg_init_area` of
actor `i - 1` (its `main_area` base plus `REG_INIT_OFFSET`), and `UTIL_OFFSET` below it
is the first byte after the `overflow_pad` of actor `i - 1`; neither address lies inside
the `util_t` placed directly before actor 0. -/
theorem util_offsets_of_later_actors_miss_util_t
    (A M utilBase i : Nat) (hi : 1 ≤ i) :
    mainAreaBase (dataBaseAfterUtil utilBase A M) i
        = mainAreaBase (dataBaseAfterUtil utilBase A M) 0 + 16384 * i
      ∧ addrBelow (mainAreaBase (dataBaseAfterUtil utilBase A M) i) STORED_RSP_OFFSET
        = ((memberAddr (elemAddr (dataBaseAfterUtil utilBase A M) actor_data_t (i - 1))
            actor_data_t .reg_init_area : Nat) : Int)
      ∧ memberAddr (elemAddr (dataBaseAfterUtil utilBase A M) actor_data_t (i - 1))
            actor_data_t .reg_init_area
        = mainAreaBase (dataBaseAfterUtil utilBase A M) (i - 1) + REG_INIT_OFFSET
      ∧ addrBelow (mainAreaBase (dataBaseAfterUtil utilBase A M) i) UTIL_OFFSET
        = ((memberAddr (elemAddr (dataBaseAfterUtil utilBase A M) actor_data_t (i - 1))
            actor_data_t .overflow_pad + memberSize actor_data_t .overflow_pad : Nat) : Int)
      ∧ ¬ inRegion utilBase (sizeofPacked (util_t A M))
        (addrBelow (mainAreaBase (dataBaseAfterUtil utilBase A M) i) STORED_RSP_OFFSET)
      ∧ ¬ inRegion utilBase (sizeofPacked (util_t A M))
        (addrBelow (mainAreaBase (dataBaseAfterUtil utilBase A M) i) UTIL_OFFSET) := by
  have hutil : UTIL_OFFSET = 4096 := by decide
  have hrsp : STORED_RSP_OFFSET = 8192 := by decide
  have hreg : REG_INIT_OFFSET = 8192 := by decide
  have horeg : offsetofPacked actor_data_t .reg_init_area = 12288 := by decide
  have hopad : offsetofPacked actor_data_t .overflow_pad = 12608 := by decide
  have hspad : memberSize actor_data_t .overflow_pad = 3776 := by decide
  simp only [mainAreaBase_eq, inRegion, addrBelow, memberAddr, elemAddr, sizeof_actor_data_t,
    dataBaseAfterUtil, hutil, hrsp, hreg, horeg, hopad, hspad]
  refine ⟨by omega, by omega, trivial, by omega, by omega, by omega⟩

theorem util_offsets_of_later_actors_miss_util_t_witness :
    (1 : Nat) ≤ 2
      ∧ mainAreaBase (dataBaseAfterUtil 4096 8 24) 2
        = mainAreaBase (dataBaseAfterUtil 4096 8 24) 0 + 16384 * 2
      ∧ addrBelow (mainAreaBase (dataBaseAfterUtil 4096 8 24) 2) STORED_RSP_OFFSET
        = ((memberAddr (elemAddr (dataBaseAfterUtil 4096 8 24) actor_data_t (2 - 1))
            actor_data_t .reg_init_area : Nat) : Int)
      ∧ memberAddr (elemAddr (dataBaseAfterUtil 4096 8 24) actor_data_t (2 - 1))
            actor_data_t .reg_init_area
        = mainAreaBase (dataBaseAfterUtil 4096 8 24) (2 - 1) + REG_INIT_OFFSET
      ∧ addrBelow (mainAreaBase (dataBaseAfterUtil 4096 8 24) 2) UTIL_OFFSET
        = ((memberAddr (elemAddr (dataBaseAfterUtil 4096 8 24) actor_data_t (2 - 1))
            actor_data_t .overflow_pad + memberSize actor_data_t .overflow_pad : Nat) : Int)
      ∧ ¬ inRegion 4096 (sizeofPacked (util_t 8 24))
        (addrBelow (mainAreaBase (dataBaseAfterUtil 4096 8 24) 2) STORED_RSP_OFFSET)
      ∧ ¬ inRegion 4096 (sizeofPacked (util_t 8 24))
        (addrBelow (mainAreaBase (dataBaseAfterUtil 4096 8 24) 2) UTIL_OFFSET) :=
  ⟨by decide, util_offsets_of_later_actors_miss_util_t 8 24 4096 2 (by decide)⟩

/-! ## Allocation and lifecycle -/

theorem allocate_sandbox_ok (A M n : Nat) (host : Option Nat) (s : ManagerState)
    (hok : (allocate_sandbox A M n host s).1 = .ok ()) :
    ∃ base, host = some base ∧ base % 4096 = 0
      ∧ (allocate_sandbox A M n host s).2.sandbox
        = some ⟨base + sizeofPacked (util_t A M),
            base + sizeofPacked (util_t A M) + n * sizeofPacked actor_data_t, base⟩
      ∧ (allocate_sandbox A M n host s).2.memory
        = zeroFill s.memory base (sandboxRegionSize A M n) := by
  obtain ⟨lc, sb, stack, mem⟩ := s
  cases host with
  | none => cases lc <;> simp [allocate_sandbox] at hok
  | some base =>
    by_cases hb : base % 4096 = 0
    · cases lc
      · simp [allocate_sandbox] at hok
      · exact ⟨base, rfl, hb, by simp [allocate_sandbox, hb], by simp [allocate_sandbox, hb]⟩
      · exact ⟨base, rfl, hb, by simp [allocate_sandbox, hb], by simp [allocate_sandbox, hb]⟩
    · cases lc <;> simp [allocate_sandbox, hb] at hok

theorem actor_member_offset_bound (f : ActorDataField) :
    offsetofPacked actor_data_t f + memberSize actor_data_t f ≤ 16384 := by
  cases f <;> decide

theorem zeroFill_inside (memory : Nat → Nat) (base size a : Nat)
    (hlo : base ≤ a) (hhi : a < base + size) : zeroFill memory base size a = 0 := by
  simp [zeroFill, hlo, hhi]

theorem init_rejected_of_initialized (s : ManagerState) (h : s.lifecycle = .initialized) :
    init_sandbox_manager s = (.error .ConfigurationError, s) := by
  simp [init_sandbox_manager, h]

theorem callLifecycle_keeps_initialized (s : ManagerState) (c : LifecycleCall)
    (h : s.lifecycle = .initialized) (hc : c ≠ .free) :
    (callLifecycle s c).lifecycle = .initialized := by
  cases c with
  | init => simp [callLifecycle, init_sandbox_manager, h]
  | allocate A M n host =>
    obtain ⟨lc, sb, stack, mem⟩ := s
    simp only at h
    subst h
    cases host with
    | none => simp [callLifecycle, allocate_sandbox]
    | some base =>
      by_cases hb : base % 4096 = 0 <;> simp [callLifecycle, allocate_sandbox, hb]
  | free => exact absurd rfl hc

theorem runLifecycle_keeps_initialized (calls : List LifecycleCall) (s : ManagerState)
    (h : s.lifecycle = .initialized) (hnofree : ∀ c ∈ calls, c ≠ .free) :
    (runLifecycle s calls).lifecycle = .initialized := by
  induction calls generalizing s with
  | nil => exact h
  | cons c cs ih =>
    have hc : c ≠ .free := hnofree c (List.mem_cons_self c cs)
    have hcs : ∀ d ∈ cs, d ≠ .free := fun d hd => hnofree d (List.mem_cons_of_mem c hd)
    exact ih (callLifecycle s c) (callLifecycle_keeps_initialized s c h hc) hcs

theorem init_ok_lifecycle (s : ManagerState) (hok : (init_sandbox_manager s).1 = .ok ()) :
    (init_sandbox_manager s).2.lifecycle = .initialized := by
  obtain ⟨lc, sb, stack, mem⟩ := s
  cases lc <;> simp [init_sandbox_manager] at hok ⊢

/-- C12: after every successful `allocate_sandbox` the handle's `util` pointer
immediately precedes actor 0's data pointer in the same allocation: the address in
`sandbox->util`, the start of the region the host supplied, plus `sizeof(util_t)` is the
address in `sandbox->data`, the address of actor 0's block, with no gap. -/
theorem util_immediately_precedes_data_after_allocate
    (A M n : Nat) (host : Option Nat) (s : ManagerState)
    (hok : (allocate_sandbox A M n host s).1 = .ok ()) :
    ∃ sb : sandbox_t, (allocate_sandbox A M n host s).2.sandbox = some sb
      ∧ host = some sb.util
      ∧ sb.util + sizeofPacked (util_t A M) = sb.data
      ∧ elemAddr sb.data actor_data_t 0 = sb.util + sizeofPacked (util_t A M) := by
  obtain ⟨base, hhost, _, hsb, _⟩ := allocate_sandbox_ok A M n host s hok
  refine ⟨_, hsb, hhost, rfl, ?_⟩
  simp [elemAddr]

theorem util_immediately_precedes_data_after_allocate_witness :
    (allocate_sandbox 8 24 2 (some 8192) ⟨.initialized, none, 0, fun _ => 255⟩).1 = .ok ()
      ∧ ∃ sb : sandbox_t,
        (allocate_sandbox 8 24 2 (some 8192) ⟨.initialized, none, 0, fun _ => 255⟩).2.sandbox
          = some sb
        ∧ some 8192 = some sb.util
        ∧ sb.util + sizeofPacked (util_t 8 24) = sb.data
        ∧ elemAddr sb.data actor_data_t 0 = sb.util + sizeofPacked (util_t 8 24) :=
  ⟨rfl, util_immediately_precedes_data_after_allocate 8 24 2 (some 8192)
    ⟨.initialized, none, 0, fun _ => 255⟩ rfl⟩

/-- C13: after every successful `allocate_sandbox`, every byte of every actor's
`underflow_pad`, `overflow_pad`, `main_area` and `faulty_area` is zero, whatever the
memory held before the call. -/
theorem pads_and_data_pages_zero_after_allocate
    (A M n : Nat) (host : Option Nat) (s : ManagerState)
    (hok : (allocate_sandbox A M n host s).1 = .ok ()) :
    ∃ sb : sandbox_t, (allocate_sandbox A M n host s).2.sandbox = some sb
      ∧ ∀ i : Nat, i < n → ∀ f : ActorDataField,
          f = .underflow_pad ∨ f = .overflow_pad ∨ f = .main_area ∨ f = .faulty_area →
          ∀ k : Nat, k < memberSize actor_data_t f →
            (allocate_sandbox A M n host s).2.memory
              (memberAddr (elemAddr sb.data actor_data_t i) actor_data_t f + k) = 0 := by
  obtain ⟨base, _, _, hsb, hmem⟩ := allocate_sandbox_ok A M n host s hok
  refine ⟨_, hsb, ?_⟩
  intro i hi f _ k hk
  rw [hmem]
  have hbound := actor_member_offset_bound f
  apply zeroFill_inside
  · simp only [memberAddr, elemAddr]
    omega
  · simp only [memberAddr, elemAddr, sandboxRegionSize, sizeof_actor_data_t] at hbound ⊢
    omega

theorem pads_and_data_pages_zero_after_allocate_witness :
    (allocate_sandbox 8 24 2 (some 4096) ⟨.released, none, 0, fun a => a % 256⟩).1 = .ok ()
      ∧ ∃ sb : sandbox_t,
        (allocate_sandbox 8 24 2 (some 4096) ⟨.released, none, 0, fun a => a % 256⟩).2.sandbox
          = some sb
        ∧ ∀ i : Nat, i < 2 → ∀ f : ActorDataField,
            f = .underflow_pad ∨ f = .overflow_pad ∨ f = .main_area ∨ f = .faulty_area →
            ∀ k : Nat, k < memberSize actor_data_t f →
              (allocate_sandbox 8 24 2 (some 4096)
                  ⟨.released, none, 0, fun a => a % 256⟩).2.memory
                (memberAddr (elemAddr sb.data actor_data_t i) actor_data_t f + k) = 0 :=
  ⟨rfl, pads_and_data_pages_zero_after_allocate 8 24 2 (some 4096)
    ⟨.released, none, 0, fun a => a % 256⟩ rfl⟩

/-- C14: calling `init_sandbox_manager` a second time without an intervening
`free_sandbox_manager` is rejected with `ConfigurationError`, and leaves the state, the
active sandbox handle included, unchanged: after a successful `init` and any sequence of
lifecycle calls that contains no `free`, a further `init` returns the error and the state
it was called in. -/
theorem second_init_without_free_is_rejected
    (s : ManagerState) (calls : List LifecycleCall)
    (hfirst : (init_sandbox_manager s).1 = .ok ())
    (hnofree : ∀ c ∈ calls, c ≠ .free) :
    (init_sandbox_manager (runLifecycle (init_sandbox_manager s).2 calls)).1
        = .error .ConfigurationError
      ∧ (init_sandbox_manager (runLifecycle (init_sandbox_manager s).2 calls)).2
        = runLifecycle (init_sandbox_manager s).2 calls
      ∧ (init_sandbox_manager (runLifecycle (init_sandbox_manager s).2 calls)).2.sandbox
        = (runLifecycle (init_sandbox_manager s).2 calls).sandbox := by
  have hlc := runLifecycle_keeps_initialized calls (init_sandbox_manager s).2
    (init_ok_lifecycle s hfirst) hnofree
  rw [init_rejected_of_initialized _ hlc]
  exact ⟨rfl, rfl, rfl⟩

theorem second_init_without_free_is_rejected_witness :
    (init_sandbox_manager ⟨.uninitialized, none, 0, fun _ => 255⟩).1 = .ok ()
      ∧ (∀ c ∈ [LifecycleCall.allocate 8 24 2 (some 4096)], c ≠ LifecycleCall.free)
      ∧ (init_sandbox_manager (runLifecycle
            (init_sandbox_manager ⟨.uninitialized, none, 0, fun _ => 255⟩).2
            [LifecycleCall.allocate 8 24 2 (some 4096)])).1
        = .error .ConfigurationError
      ∧ (init_sandbox_manager (runLifecycle
            (init_sandbox_manager ⟨.uninitialized, none, 0, fun _ => 255⟩).2
            [LifecycleCall.allocate 8 24 2 (some 4096)])).2
        = runLifecycle (init_sandbox_manager ⟨.uninitialized, none, 0, fun _ => 255⟩).2
            [LifecycleCall.allocate 8 24 2 (some 4096)]
      ∧ (init_sandbox_manager (runLifecycle
            (init_sandbox_manager ⟨.uninitialized, none, 0, fun _ => 255⟩).2
            [LifecycleCall.allocate 8 24 2 (some 4096)])).2.sandbox
        = (runLifecycle (init_sandbox_manager ⟨.uninitialized, none, 0, fun _ => 255⟩).2
            [LifecycleCall.allocate 8 24 2 (some 4096)]).sandbox :=
  ⟨rfl, by decide, second_init_without_free_is_rejected
    ⟨.uninitialized, none, 0, fun _ => 255⟩ [LifecycleCall.allocate 8 24 2 (some 4096)]
    rfl (by decide)⟩

end SandboxManager
